import Mathlib

/-!
Verification of the token-lifecycle subsystem of a layered FastAPI/SQLAlchemy
CRUD service: token encoding/decoding, refresh rotation, the persisted
revocation ledger, credential authentication and the JWT request gate.

The embedding follows the Python source:
  * `apps/auth/services.py`   — `AuthService` (refresh, revoke, decode, encode)
  * `apps/auth/connector.py`  — `authenticate_credentials`
  * `core/exceptions.py`      — the error taxonomy and app-level handlers
  * `core/middleware/jwt_middleware.py` — `JWTAuthMiddleware.dispatch`
  * `core/middleware/exc_middleware.py` — `DBErrorMiddleware.dispatch`

Machine integers do not occur; timestamps are second-granularity unix epoch
naturals. Fallible operations return `Except`. Database state (the
`auth_revoked_tokens` table) is passed explicitly as a list of revoked `jti`
strings. Python exceptions that are not part of the declared taxonomy
(e.g. `KeyError` from an unguarded `payload['sub']` subscript) are modelled
by a dedicated error constructor so that they remain distinguishable from
`TokenInvalid`/`TokenExpired`.
-/

namespace AuthCore

/-- Error taxonomy of `core/exceptions.py` restricted to this subsystem,
plus `keyError`, which models a raw Python `KeyError` escaping from an
unguarded dictionary subscript (an unclassified internal failure, not one
of the declared HTTP exceptions). Each declared kind carries its `detail`
message. -/
inductive AuthError where
  | tokenExpired (detail : String)
  | tokenInvalid (detail : String)
  | invalidCredentials (detail : String)
  | keyError (key : String)
deriving DecidableEq, Repr

/-- Default detail of `TokenExpired` in `core/exceptions.py`. -/
def tokenExpiredDefault : String := "Токен истёк"

/-- Default detail of `TokenInvalid` in `core/exceptions.py`. -/
def tokenInvalidDefault : String := "Недействительный токен"

/-- Default detail of `InvalidCredentials` in `core/exceptions.py`. -/
def invalidCredentialsDefault : String := "Неверный логин или пароль"

/-- A decoded JWT claim set as `jwt.decode` returns it: a dictionary, so the
`sub` / `type` / `jti` claims may be absent (`none`). `iat` and `exp` are
second-granularity unix timestamps. -/
structure TokenPayload where
  sub : Option String
  type : Option String
  jti : Option String
  iat : Nat
  exp : Nat
deriving DecidableEq, Repr

/-- A token string as the codec sees it: either a string carrying a valid
signature over a claim set (under the process-wide secret and algorithm), or
anything else (bad signature, malformed payload, wrong algorithm), which the
codec cannot distinguish further. -/
inductive Token where
  | signed (p : TokenPayload)
  | malformed
deriving DecidableEq, Repr

/-- Exceptions of the PyJWT library relevant to `jwt.decode`. -/
inductive JwtError where
  | expiredSignature
  | otherPyJwtError
deriving DecidableEq, Repr

/-- Modelled from the spec: the `jwt.decode(token, SECRET_KEY, algorithms=[ALGORITHM])`
call of the PyJWT library, which is not part of this repository. The spec
fixes its behavior: verification "fails with `TokenExpired` when current
time ≥ `expires_at`; fails with `TokenInvalid` for any other verification
failure (bad signature, malformed payload, unsupported algorithm)", with
second-granularity integer timestamps and the expiry comparison inclusive of
the boundary (`now >= expires_at` ⇒ expired). -/
def jwtDecode (now : Nat) (t : Token) : Except JwtError TokenPayload :=
  match t with
  | Token.malformed => .error JwtError.otherPyJwtError
  | Token.signed p => if p.exp ≤ now then .error JwtError.expiredSignature else .ok p

/-- Model of `AuthService._decode_token`: wraps `jwt.decode`, mapping
`ExpiredSignatureError` to `TokenExpired()` and any other `PyJWTError` to
`TokenInvalid()` (both with their default details). -/
def _decode_token (now : Nat) (t : Token) : Except AuthError TokenPayload :=
  match jwtDecode now t with
  | .error JwtError.expiredSignature => .error (AuthError.tokenExpired tokenExpiredDefault)
  | .error JwtError.otherPyJwtError => .error (AuthError.tokenInvalid tokenInvalidDefault)
  | .ok p => .ok p

/-- Value of `settings.ACCESS_TTL_MIN` (minutes), default from `settings/settings.py`. -/
def ACCESS_TTL_MIN : Nat := 15

/-- Value of `settings.REFRESH_TTL_DAYS` (days), default from `settings/settings.py`. -/
def REFRESH_TTL_DAYS : Nat := 7

/-- Model of `AuthService._encode_token`: builds the claim dictionary
`{sub, type, jti, iat, exp}` and signs it. The fresh `uuid4().hex` value is
supplied by the caller as `jti` (randomness made explicit); `iat`/`exp` are
already-truncated unix seconds. An encoded token always carries all claims. -/
def _encode_token (sub typ jti : String) (iat exp : Nat) : Token :=
  Token.signed { sub := some sub, type := some typ, jti := some jti, iat := iat, exp := exp }

/-- Model of `apps/auth/schemas.py::TokenPair` (token strings kept abstract). -/
structure TokenPair where
  access_token : Token
  refresh_token : Token
  token_type : String
deriving DecidableEq, Repr

/-- The persisted `auth_revoked_tokens` table, projected to its primary key:
the set of revoked `jti` strings. -/
abbrev Ledger := List String

/-- Model of `AuthService._is_refresh_revoked`: the point lookup
`SELECT 1 FROM auth_revoked_tokens WHERE jti = :jti`. -/
def _is_refresh_revoked (ledger : Ledger) (jti : String) : Bool :=
  decide (jti ∈ ledger)

/-- Model of `AuthService._revoke_jti`: the insert
`INSERT INTO auth_revoked_tokens (jti, revoked_at) VALUES (:jti, NOW()) ON CONFLICT DO NOTHING` —
a no-op when the key is already present. -/
def _revoke_jti (ledger : Ledger) (jti : String) : Ledger :=
  if jti ∈ ledger then ledger else ledger ++ [jti]

/-- The access/refresh pair built by `AuthService.refresh` (and, with the
same shape, by `issue_tokens`): both tokens share the captured `now` as
`iat`, with the configured TTLs (minutes resp. days, here in seconds). -/
def issued_pair (sub : String) (now : Nat) (jtiA jtiR : String) : TokenPair :=
  { access_token := _encode_token sub "access" jtiA now (now + ACCESS_TTL_MIN * 60),
    refresh_token := _encode_token sub "refresh" jtiR now (now + REFRESH_TTL_DAYS * 86400),
    token_type := "bearer" }

/-- Model of `AuthService.refresh`. The two fresh `uuid4().hex` values consumed by
the two `_encode_token` calls are passed as `jtiA`/`jtiR`. The ledger is
threaded through and returned on success (the method runs no INSERT, only
the SELECT of `_is_refresh_revoked`). Python truthiness of
`payload.get('jti')`: `None` and the empty string are both falsy, and the
`or` short-circuits, so the ledger is not consulted for a falsy jti.
`payload['sub']` is an unguarded subscript: a missing `sub` raises
`KeyError('sub')`. -/
def refresh (ledger : Ledger) (now : Nat) (jtiA jtiR : String) (t : Token) :
    Except AuthError (TokenPair × Ledger) :=
  match _decode_token now t with
  | .error e => .error e
  | .ok payload =>
    if payload.type ≠ some "refresh" then
      .error (AuthError.tokenInvalid "ожидался refresh-токен")
    else
      match payload.jti with
      | none => .error (AuthError.tokenInvalid "refresh-токен отозван")
      | some j =>
        if j = "" ∨ _is_refresh_revoked ledger j = true then
          .error (AuthError.tokenInvalid "refresh-токен отозван")
        else
          match payload.sub with
          | none => .error (AuthError.keyError "sub")
          | some s => .ok (issued_pair s now jtiA jtiR, ledger)

/-- Model of `AuthService.revoke_refresh_token`. Returns the ledger after the call
together with a flag recording whether `session.commit()` was issued.
`if jti:` guards both the insert and the commit, so a falsy jti (absent
claim or empty string) leaves the ledger untouched and commits nothing. -/
def revoke_refresh_token (ledger : Ledger) (now : Nat) (t : Token) :
    Except AuthError (Ledger × Bool) :=
  match _decode_token now t with
  | .error e => .error e
  | .ok payload =>
    if payload.type ≠ some "refresh" then
      .error (AuthError.tokenInvalid "ожидался refresh-токен")
    else
      match payload.jti with
      | none => .ok (ledger, false)
      | some j =>
        if j = "" then .ok (ledger, false)
        else .ok (_revoke_jti ledger j, true)

/-- Model of `AuthService.decode_access`: decode, then reject any payload whose
`type` claim is not `'access'`. -/
def decode_access (now : Nat) (t : Token) : Except AuthError TokenPayload :=
  match _decode_token now t with
  | .error e => .error e
  | .ok payload =>
    if payload.type ≠ some "access" then
      .error (AuthError.tokenInvalid "Ожидался access-токен")
    else
      .ok payload

/-! ### Credential verifier (`apps/auth/connector.py`, `apps/user/repository.py`) -/

/-- A raw user row as the repository returns it (`get_raw_by_username` /
`get_raw_by_email`): includes the stored password hash. -/
structure UserRec where
  id : Nat
  username : String
  email : String
  hashed_password : String
deriving DecidableEq, Repr

/-- Model of `UserRepository.get_raw_by_username`: exact-match lookup. -/
def get_raw_by_username (store : List UserRec) (u : String) : Option UserRec :=
  store.find? (fun r => r.username == u)

/-- Model of `UserRepository.get_raw_by_email`: exact-match lookup. -/
def get_raw_by_email (store : List UserRec) (e : String) : Option UserRec :=
  store.find? (fun r => r.email == e)

/-- The lookup branch of `authenticate_credentials`: route by whether the
normalized login contains `@` (Python `'@' in login_norm`, expressed as
membership of the character in the string's character list). -/
def lookup_login (store : List UserRec) (login_norm : String) : Option UserRec :=
  if '@' ∈ login_norm.data then get_raw_by_email store login_norm
  else get_raw_by_username store login_norm

/-- Model of `apps/auth/connector.py::authenticate_credentials`. The normalization
`login.casefold().strip()` and the bcrypt check `verify_password` live in
the Python standard library resp. the bcrypt package, so they are abstract
parameters `norm` and `verify` here. The hash guard mirrors
`hashed = getattr(user_obj, 'hashed_password', '') or ''` followed by
`if hashed and verify_password(password, hashed)`. -/
def authenticate_credentials (norm : String → String) (verify : String → String → Bool)
    (store : List UserRec) (login password : String) : Option UserRec :=
  let login_norm := norm login
  match lookup_login store login_norm with
  | none => none
  | some user_obj =>
    let hashed := user_obj.hashed_password
    if hashed ≠ "" ∧ verify password hashed = true then some user_obj else none

/-- Model of `AuthService.authenticate`: raise `InvalidCredentials()` (with its
default detail) whenever the connector returns no user. -/
def authenticate (norm : String → String) (verify : String → String → Bool)
    (store : List UserRec) (login password : String) : Except AuthError UserRec :=
  match authenticate_credentials norm verify store login password with
  | none => .error (AuthError.invalidCredentials invalidCredentialsDefault)
  | some u => .ok u

/-! ### Request gate (`core/middleware/jwt_middleware.py`) and its wrapper
(`core/middleware/exc_middleware.py`), as assembled in `main.py`:
`DBErrorMiddleware` wraps `JWTAuthMiddleware`, which wraps the routed app. -/

/-- Value of `EXCLUDE_PATHS` in `core/middleware/jwt_middleware.py`. -/
def EXCLUDE_PATHS : List String :=
  ["/docs", "/openapi.json", "/redoc", "/health", "/favicon.ico",
   "/api/v1/external/posts", "/api/v1/send-email"]

/-- Value of `EXCLUDE_PREFIXES` in `core/middleware/jwt_middleware.py`. -/
def EXCLUDE_PREFIXES : List String := ["/api/v1/auth"]

/-- The allow-list check of `JWTAuthMiddleware.dispatch`:
`path in EXCLUDE_PATHS or any(path.startswith(p) for p in EXCLUDE_PREFIXES)`
(the startswith test expressed on the character lists). -/
def path_is_excluded (path : String) : Bool :=
  decide (path ∈ EXCLUDE_PATHS) ||
    EXCLUDE_PREFIXES.any (fun p => p.data.isPrefixOf path.data)

/-- The `Authorization` header of a request, from the codec's viewpoint:
absent, present but not of the form `Bearer <token>`, or a bearer token
(whose stripped token part the codec then classifies). -/
inductive AuthHeader where
  | missing
  | notBearer
  | bearer (t : Token)
deriving DecidableEq, Repr

/-- The part of an inbound request that `JWTAuthMiddleware.dispatch` reads. -/
structure GateRequest where
  path : String
  method : String
  auth : AuthHeader
deriving DecidableEq, Repr

/-- A JSON error response as built by the middleware / the handlers of
`core/exceptions.py`: status code, `detail` body field, and the optional
`WWW-Authenticate` header. -/
structure JsonResp where
  status_code : Nat
  detail : String
  www_authenticate : Option String
deriving DecidableEq, Repr

/-- Outcome of one `JWTAuthMiddleware.dispatch` invocation. -/
inductive GateOutcome where
  | bypass
  | forwarded (sub : Option String)
  | rejected (r : JsonResp)
  | raised (e : AuthError)
deriving DecidableEq, Repr

/-- Model of `JWTAuthMiddleware.dispatch`. Excluded paths and `OPTIONS` requests
bypass verification. A missing or non-`Bearer` `Authorization` header
yields `JSONResponse({'detail': 'Not authenticated'}, status_code=401)` —
built directly, with no `WWW-Authenticate` header. Otherwise
`decode_access` either raises (the exception escapes `dispatch`) or
succeeds, upon which `request.state.sub = payload.get('sub')` is bound and
the request is forwarded. -/
def jwt_dispatch (now : Nat) (req : GateRequest) : GateOutcome :=
  if path_is_excluded req.path then .bypass
  else if req.method = "OPTIONS" then .bypass
  else
    match req.auth with
    | .missing =>
      .rejected { status_code := 401, detail := "Not authenticated", www_authenticate := none }
    | .notBearer =>
      .rejected { status_code := 401, detail := "Not authenticated", www_authenticate := none }
    | .bearer t =>
      match decode_access now t with
      | .error e => .raised e
      | .ok payload => .forwarded payload.sub

/-- Outcome of the middleware pipeline around the router: either the
request reached the downstream handler chain (with the bound subject), or a
response was produced by some middleware. -/
inductive PipelineOutcome where
  | handled (sub : Option String)
  | response (r : JsonResp)
deriving DecidableEq, Repr

/-- Model of `DBErrorMiddleware.dispatch` around the JWT gate. Its `except` clauses
catch the 404/409 domain exceptions, `IntegrityError` and `DBAPIError`;
every other exception — in particular `TokenExpired`, `TokenInvalid` and
`KeyError` raised inside `JWTAuthMiddleware.dispatch` — falls into the
final `except Exception` clause and becomes the generic 500 response
`{'detail': 'Произошла непредвиденная ошибка'}`, with no
`WWW-Authenticate` header. A `JSONResponse` returned (not raised) by the
inner middleware passes through unchanged. -/
def db_error_dispatch (inner : GateOutcome) : PipelineOutcome :=
  match inner with
  | .bypass => .handled none
  | .forwarded s => .handled s
  | .rejected r => .response r
  | .raised _ =>
    .response { status_code := 500, detail := "Произошла непредвиденная ошибка",
                www_authenticate := none }

/-- The full gate pipeline a guarded request passes through. -/
def gate_pipeline (now : Nat) (req : GateRequest) : PipelineOutcome :=
  db_error_dispatch (jwt_dispatch now req)

/-- Model of `token_expired_handler` in `core/exceptions.py`: the app-level
exception handler for `TokenExpired` (registered on the FastAPI app, i.e.
below the middleware stack). -/
def token_expired_handler (detail : String) : JsonResp :=
  { status_code := 401, detail := detail,
    www_authenticate := some "Bearer error=\"invalid_token\", error_description=\"expired\"" }

/-- Model of `token_invalid_handler` in `core/exceptions.py`. -/
def token_invalid_handler (detail : String) : JsonResp :=
  { status_code := 401, detail := detail,
    www_authenticate := some "Bearer error=\"invalid_token\"" }

/-- Model of `invalid_credentials_handler` in `core/exceptions.py`. -/
def invalid_credentials_handler (detail : String) : JsonResp :=
  { status_code := 401, detail := detail, www_authenticate := some "Bearer" }

/-! ### Concrete tokens used by counterexamples and evaluations -/

/-- A validly signed, unexpired refresh-type claim set carrying a subject
but no `jti` claim (never produced by `_encode_token`, but decodable). -/
def noJtiPayload : TokenPayload :=
  { sub := some "1", type := some "refresh", jti := none, iat := 1, exp := 100 }

/-- The token signing `noJtiPayload`. -/
def noJtiTok : Token := Token.signed noJtiPayload

/-- A validly signed, unexpired refresh-type claim set carrying a `jti`
but no `sub` claim. -/
def noSubTok : Token :=
  Token.signed { sub := none, type := some "refresh", jti := some "j1", iat := 1, exp := 100 }

/-- A validly signed access token that is expired at instant 100. -/
def expiredAccessTok : Token :=
  Token.signed { sub := some "1", type := some "access", jti := some "x", iat := 1, exp := 50 }

/-- A well-formed refresh-token claim set used by concrete witnesses. -/
def wPayload : TokenPayload :=
  { sub := some "42", type := some "refresh", jti := some "j0", iat := 1, exp := 99 }

/-- A well-formed access-token claim set expiring at 50, for witnesses. -/
def wAccessPayload : TokenPayload :=
  { sub := some "1", type := some "access", jti := some "x", iat := 1, exp := 50 }

/-- A refresh-type claim set lacking `jti`, for witnesses. -/
def wNoJtiPayload : TokenPayload :=
  { sub := some "1", type := some "refresh", jti := none, iat := 1, exp := 99 }

/-! ### Basic lemmas about the codec and the ledger -/

lemma decode_signed_ok (now : Nat) (p : TokenPayload) (h : now < p.exp) :
    _decode_token now (Token.signed p) = .ok p := by
  simp [_decode_token, jwtDecode, Nat.not_le.mpr h]

lemma decode_signed_expired (now : Nat) (p : TokenPayload) (h : p.exp ≤ now) :
    _decode_token now (Token.signed p) = .error (AuthError.tokenExpired tokenExpiredDefault) := by
  simp [_decode_token, jwtDecode, h]

lemma is_revoked_revoke_jti_self (ledger : Ledger) (j : String) :
    _is_refresh_revoked (_revoke_jti ledger j) j = true := by
  unfold _is_refresh_revoked _revoke_jti
  by_cases h : j ∈ ledger <;> simp [h]

lemma is_revoked_of_subset {l1 l2 : Ledger} {j : String}
    (hs : l1 ⊆ l2) (h : _is_refresh_revoked l1 j = true) :
    _is_refresh_revoked l2 j = true := by
  unfold _is_refresh_revoked at h ⊢
  simp only [decide_eq_true_eq] at h ⊢
  exact hs h

lemma revoke_jti_idem (ledger : Ledger) (j : String) :
    _revoke_jti (_revoke_jti ledger j) j = _revoke_jti ledger j := by
  unfold _revoke_jti
  by_cases h : j ∈ ledger <;> simp [h]

lemma refresh_signed_ok (ledger : Ledger) (now : Nat) (jtiA jtiR : String)
    (p : TokenPayload) (j s : String)
    (hexp : now < p.exp) (ht : p.type = some "refresh") (hj : p.jti = some j)
    (hne : j ≠ "") (hnr : _is_refresh_revoked ledger j = false) (hs : p.sub = some s) :
    refresh ledger now jtiA jtiR (Token.signed p) = .ok (issued_pair s now jtiA jtiR, ledger) := by
  simp [refresh, decode_signed_ok now p hexp, ht, hj, hne, hnr, hs]

/-- Inversion: everything a successful `refresh` of a signed token implies. -/
lemma refresh_signed_ok_inv (ledger ledger2 : Ledger) (now : Nat) (jtiA jtiR : String)
    (p : TokenPayload) (pair : TokenPair)
    (h : refresh ledger now jtiA jtiR (Token.signed p) = .ok (pair, ledger2)) :
    ledger2 = ledger ∧ now < p.exp ∧ p.type = some "refresh" ∧
      ∃ j s, p.jti = some j ∧ j ≠ "" ∧ _is_refresh_revoked ledger j = false ∧
        p.sub = some s ∧ pair = issued_pair s now jtiA jtiR := by
  by_cases hexp : now < p.exp
  case neg =>
    simp [refresh, decode_signed_expired now p (by omega)] at h
  case pos =>
    by_cases ht : p.type = some "refresh"
    case neg =>
      simp [refresh, decode_signed_ok now p hexp, ht] at h
    case pos =>
      cases hj : p.jti with
      | none => simp [refresh, decode_signed_ok now p hexp, ht, hj] at h
      | some j =>
        by_cases hne : j = ""
        case pos => simp [refresh, decode_signed_ok now p hexp, ht, hj, hne] at h
        case neg =>
          by_cases hnr : _is_refresh_revoked ledger j = true
          case pos => simp [refresh, decode_signed_ok now p hexp, ht, hj, hne, hnr] at h
          case neg =>
            cases hs : p.sub with
            | none => simp [refresh, decode_signed_ok now p hexp, ht, hj, hne, hnr, hs] at h
            | some s =>
              simp [refresh, decode_signed_ok now p hexp, ht, hj, hne, hnr, hs] at h
              obtain ⟨h1, h2⟩ := h
              exact ⟨h2.symm, hexp, ht, j, s, rfl, hne, by simpa using hnr, rfl, h1.symm⟩

/-! ### Claim theorems -/

/-- C1: Revocation enforcement. Once `revoke_refresh_token` has succeeded on
a refresh token whose jti `j` is a truthy claim, every subsequent
`refresh` of that token within its validity window — against the ledger the
revoke produced, or any later ledger extending it (the ledger only grows) —
fails with `TokenInvalid`: the ledger lookup rejects the token before any
new pair is issued. -/
theorem revoked_token_refresh_fails (ledger ledger2 ledger3 : Ledger) (c : Bool)
    (now now2 : Nat) (jtiA jtiR : String) (p : TokenPayload) (j : String)
    (ht : p.type = some "refresh") (hj : p.jti = some j) (hne : j ≠ "")
    (hexp : now < p.exp) (hexp2 : now2 < p.exp)
    (hrev : revoke_refresh_token ledger now (Token.signed p) = .ok (ledger2, c))
    (hgrow : ledger2 ⊆ ledger3) :
    refresh ledger3 now2 jtiA jtiR (Token.signed p) =
      .error (AuthError.tokenInvalid "refresh-токен отозван") := by
  have h2 : ledger2 = _revoke_jti ledger j := by
    simp [revoke_refresh_token, decode_signed_ok now p hexp, ht, hj, hne] at hrev
    exact hrev.1.symm
  have hm : _is_refresh_revoked ledger3 j = true :=
    is_revoked_of_subset hgrow (h2 ▸ is_revoked_revoke_jti_self ledger j)
  simp [refresh, decode_signed_ok now2 p hexp2, ht, hj, hm]

/-- C1 witness: a concrete revoke-then-refresh run on an empty ledger. -/
theorem revoked_token_refresh_fails_witness :
    refresh ["j0"] 6 "na" "nr" (Token.signed wPayload) =
      .error (AuthError.tokenInvalid "refresh-токен отозван") :=
  revoked_token_refresh_fails [] ["j0"] ["j0"] true 5 6 "na" "nr" wPayload "j0"
    rfl rfl (by decide) (by decide) (by decide) (by rfl) (by simp)

/-- C4: Revocation is idempotent. For a valid refresh token (signed,
unexpired, type `refresh`, truthy jti `j`), the first `revoke_refresh_token`
succeeds, after it `_is_refresh_revoked` on `j` is `true`, a second call on
the resulting ledger succeeds without error and without changing the
ledger, and the jti remains revoked. -/
theorem revoke_refresh_token_idempotent (ledger : Ledger) (now : Nat)
    (p : TokenPayload) (j : String)
    (ht : p.type = some "refresh") (hj : p.jti = some j) (hne : j ≠ "")
    (hexp : now < p.exp) :
    ∃ ledger1 : Ledger,
      revoke_refresh_token ledger now (Token.signed p) = .ok (ledger1, true) ∧
      _is_refresh_revoked ledger1 j = true ∧
      revoke_refresh_token ledger1 now (Token.signed p) = .ok (ledger1, true) ∧
      _is_refresh_revoked ledger1 j = true := by
  refine ⟨_revoke_jti ledger j, ?_, is_revoked_revoke_jti_self ledger j, ?_,
    is_revoked_revoke_jti_self ledger j⟩
  · simp [revoke_refresh_token, decode_signed_ok now p hexp, ht, hj, hne]
  · simp [revoke_refresh_token, decode_signed_ok now p hexp, ht, hj, hne,
      revoke_jti_idem]

/-- C4 witness: concrete double revocation starting from the empty ledger. -/
theorem revoke_refresh_token_idempotent_witness :
    ∃ ledger1 : Ledger,
      revoke_refresh_token [] 5 (Token.signed wPayload) = .ok (ledger1, true) ∧
      _is_refresh_revoked ledger1 "j0" = true ∧
      revoke_refresh_token ledger1 5 (Token.signed wPayload) = .ok (ledger1, true) ∧
      _is_refresh_revoked ledger1 "j0" = true :=
  revoke_refresh_token_idempotent [] 5 wPayload "j0" rfl rfl (by decide) (by decide)

/-- C5: Expiry boundary, inclusive. A validly signed token decoded at the
very instant `now = expires_at` fails with `TokenExpired`; one with
`expires_at = now + 1` decodes successfully (second-granularity unix
timestamps). -/
theorem decode_expiry_boundary (p q : TokenPayload) (now1 now2 : Nat)
    (h1 : p.exp = now1) (h2 : q.exp = now2 + 1) :
    _decode_token now1 (Token.signed p) =
        .error (AuthError.tokenExpired tokenExpiredDefault) ∧
    _decode_token now2 (Token.signed q) = .ok q :=
  ⟨decode_signed_expired now1 p (by omega), decode_signed_ok now2 q (by omega)⟩

/-- C5 witness: boundary instants 50 and 49 for a token expiring at 50. -/
theorem decode_expiry_boundary_witness :
    _decode_token 50 (Token.signed wAccessPayload) =
      .error (AuthError.tokenExpired tokenExpiredDefault) ∧
    _decode_token 49 (Token.signed wAccessPayload) = .ok wAccessPayload :=
  decode_expiry_boundary wAccessPayload wAccessPayload 50 49 rfl rfl

/-- C8: a validly signed, unexpired refresh token with a non-revoked `jti`
but no `sub` claim makes `refresh` fail with a raw `KeyError('sub')` from
the unguarded `payload['sub']` subscript — an unclassified internal error,
not a `TokenInvalid` of any detail. -/
theorem refresh_missing_sub_raises_keyerror :
    refresh [] 5 "na" "nr" noSubTok = .error (AuthError.keyError "sub") ∧
    ∀ d : String, AuthError.keyError "sub" ≠ AuthError.tokenInvalid d := by
  refine ⟨by rfl, fun d h => ?_⟩
  cases h

/-- C10: `revoke_refresh_token` on a validly signed, unexpired refresh
token whose payload lacks the `jti` claim returns success while leaving the
ledger unchanged and issuing no commit. -/
theorem revoke_without_jti_is_noop (ledger : Ledger) (now : Nat) (p : TokenPayload)
    (ht : p.type = some "refresh") (hj : p.jti = none) (hexp : now < p.exp) :
    revoke_refresh_token ledger now (Token.signed p) = .ok (ledger, false) := by
  simp [revoke_refresh_token, decode_signed_ok now p hexp, ht, hj]

/-- C10 witness: concrete jti-less refresh token against a nonempty ledger. -/
theorem revoke_without_jti_is_noop_witness :
    revoke_refresh_token ["k1"] 5 (Token.signed wNoJtiPayload) = .ok (["k1"], false) :=
  revoke_without_jti_is_noop ["k1"] 5 wNoJtiPayload rfl rfl (by decide)

/-- C2 counterexample: a validly signed, unexpired refresh-type token whose
payload has a subject but no `jti` claim. Its token id is absent, hence in
particular not in the (empty) revocation ledger, so the claim's "otherwise"
branch promises a fresh pair — yet `refresh` fails with `TokenInvalid`. -/
theorem refresh_claim_counterexample :
    _decode_token 5 noJtiTok = .ok noJtiPayload ∧
    noJtiPayload.type = some "refresh" ∧
    noJtiPayload.jti = none ∧
    refresh [] 5 "na" "nr" noJtiTok =
      .error (AuthError.tokenInvalid "refresh-токен отозван") := by
  refine ⟨by rfl, rfl, rfl, by rfl⟩

/-- C2 (amended): complete behavior of `refresh`. Decode failures
(`TokenExpired`/`TokenInvalid`) propagate unchanged; a decoded payload whose
`type` is not `refresh` fails with `TokenInvalid`; a missing or empty token
id, or one present in the revocation ledger, fails with `TokenInvalid`; and
otherwise — provided the payload carries a `sub` claim — a brand-new
access/refresh pair is issued whose subject equals the decoded token's
subject, with the ledger untouched. -/
theorem refresh_behavior (ledger : Ledger) (now : Nat) (jtiA jtiR : String) (t : Token) :
    (∀ e, _decode_token now t = .error e →
      refresh ledger now jtiA jtiR t = .error e) ∧
    (∀ p, _decode_token now t = .ok p → p.type ≠ some "refresh" →
      refresh ledger now jtiA jtiR t =
        .error (AuthError.tokenInvalid "ожидался refresh-токен")) ∧
    (∀ p, _decode_token now t = .ok p → p.type = some "refresh" →
      (p.jti = none ∨ p.jti = some "" ∨
        ∃ j, p.jti = some j ∧ _is_refresh_revoked ledger j = true) →
      refresh ledger now jtiA jtiR t =
        .error (AuthError.tokenInvalid "refresh-токен отозван")) ∧
    (∀ p j s, _decode_token now t = .ok p → p.type = some "refresh" →
      p.jti = some j → j ≠ "" → _is_refresh_revoked ledger j = false → p.sub = some s →
      refresh ledger now jtiA jtiR t = .ok (issued_pair s now jtiA jtiR, ledger)) := by
  refine ⟨fun e he => ?_, fun p hd ht => ?_, fun p hd ht hj => ?_,
    fun p j s hd ht hj hne hnr hs => ?_⟩
  · simp [refresh, he]
  · simp [refresh, hd, ht]
  · rcases hj with hj | hj | ⟨j, hj, hr⟩
    · simp [refresh, hd, ht, hj]
    · simp [refresh, hd, ht, hj]
    · simp [refresh, hd, ht, hj, hr]
  · simp [refresh, hd, ht, hj, hne, hnr, hs]

/-- C2 witness: the success branch of `refresh_behavior` at a concrete
valid refresh token and the empty ledger. -/
theorem refresh_behavior_witness :
    refresh [] 7 "na" "nr" (Token.signed wPayload) =
      .ok (issued_pair "42" 7 "na" "nr", []) :=
  (refresh_behavior [] 7 "na" "nr" (Token.signed wPayload)).2.2.2 wPayload "j0" "42"
    (by rfl) rfl rfl (by decide) (by rfl) rfl

/-- C3: a successful `refresh` leaves the revocation ledger exactly as it
was (the rotation inserts nothing), and the old refresh token therefore
remains usable: at any instant before its natural expiry a further
`refresh` against that same ledger succeeds again. -/
theorem refresh_preserves_ledger (ledger ledger2 : Ledger) (now : Nat)
    (jtiA jtiR : String) (p : TokenPayload) (pair : TokenPair)
    (h : refresh ledger now jtiA jtiR (Token.signed p) = .ok (pair, ledger2)) :
    ledger2 = ledger ∧
    ∃ s, p.sub = some s ∧
      ∀ now2 kA kR, now2 < p.exp →
        refresh ledger now2 kA kR (Token.signed p) =
          .ok (issued_pair s now2 kA kR, ledger) := by
  obtain ⟨hl, _, ht, j, s, hj, hne, hnr, hs, _⟩ :=
    refresh_signed_ok_inv ledger ledger2 now jtiA jtiR p pair h
  exact ⟨hl, s, hs, fun now2 kA kR h2 =>
    refresh_signed_ok ledger now2 kA kR p j s h2 ht hj hne hnr hs⟩

/-- C3 witness: a concrete successful rotation on the empty ledger. -/
theorem refresh_preserves_ledger_witness :
    ([] : Ledger) = [] ∧
    ∃ s, wPayload.sub = some s ∧
      ∀ now2 kA kR, now2 < wPayload.exp →
        refresh [] now2 kA kR (Token.signed wPayload) =
          .ok (issued_pair s now2 kA kR, []) :=
  refresh_preserves_ledger [] [] 7 "na" "nr" wPayload (issued_pair "42" 7 "na" "nr")
    (by rfl)

/-- C6: credential failure is ambiguity-preserving. A login that matches no
stored record and an existing login whose password does not verify (or
whose stored hash is empty) both make `authenticate` fail with the very
same error: `InvalidCredentials` with its default message. -/
theorem authenticate_failure_ambiguity (norm : String → String)
    (verify : String → String → Bool) (store : List UserRec)
    (login1 pw1 login2 pw2 : String) (u : UserRec)
    (h1 : lookup_login store (norm login1) = none)
    (h2 : lookup_login store (norm login2) = some u)
    (h3 : u.hashed_password = "" ∨ verify pw2 u.hashed_password = false) :
    authenticate norm verify store login1 pw1 =
        .error (AuthError.invalidCredentials invalidCredentialsDefault) ∧
    authenticate norm verify store login2 pw2 =
        .error (AuthError.invalidCredentials invalidCredentialsDefault) := by
  constructor
  · simp [authenticate, authenticate_credentials, h1]
  · rcases h3 with h3 | h3 <;>
      simp [authenticate, authenticate_credentials, h2, h3]

/-- A one-user credential store for the C6 witness. -/
def wStore : List UserRec :=
  [{ id := 1, username := "alice", email := "alice@mail.test", hashed_password := "h1" }]

/-- A password verifier rejecting everything, for the C6 witness. -/
def wVerifyNone : String → String → Bool := fun _ _ => false

/-- C6 witness: unknown login "bob" and existing login "alice" with a
non-verifying password produce identical errors. -/
theorem authenticate_failure_ambiguity_witness :
    authenticate id wVerifyNone wStore "bob" "anypass" =
        .error (AuthError.invalidCredentials invalidCredentialsDefault) ∧
    authenticate id wVerifyNone wStore "alice" "wrongpass" =
        .error (AuthError.invalidCredentials invalidCredentialsDefault) :=
  authenticate_failure_ambiguity id wVerifyNone wStore "bob" "anypass" "alice" "wrongpass"
    { id := 1, username := "alice", email := "alice@mail.test", hashed_password := "h1" }
    (by decide) (by decide) (Or.inr rfl)

/-- A guarded request with no `Authorization` header, for C7. -/
def wReqNoCreds : GateRequest :=
  { path := "/api/v1/users/1", method := "GET", auth := AuthHeader.missing }

/-- A guarded request bearing an expired access token, for C7. -/
def wReqExpired : GateRequest :=
  { path := "/api/v1/users/1", method := "GET", auth := AuthHeader.bearer expiredAccessTok }

/-- A guarded request bearing an undecodable token, for C7. -/
def wReqGarbage : GateRequest :=
  { path := "/api/v1/users/1", method := "GET", auth := AuthHeader.bearer Token.malformed }

/-- The bare rejection `JSONResponse` built inside `JWTAuthMiddleware`. -/
def noCredsResp : JsonResp :=
  { status_code := 401, detail := "Not authenticated", www_authenticate := none }

/-- The catch-all 500 response built by `DBErrorMiddleware`. -/
def generic500Resp : JsonResp :=
  { status_code := 500, detail := "Произошла непредвиденная ошибка", www_authenticate := none }

/-- C7 evaluation: what the gate pipeline actually answers on each
rejection. A guarded request without credentials gets the bare 401
`Not authenticated` `JSONResponse` built inside `JWTAuthMiddleware`, which
carries no `WWW-Authenticate` header; one with an expired or an invalid
bearer token raises inside the middleware, where `DBErrorMiddleware`'s
`except Exception` turns it into a generic 500 — again without the header.
The app-level handlers (which do emit distinguishing `WWW-Authenticate`
values) sit below the middleware stack and are never reached from the
gate. -/
theorem gate_rejections_lack_www_authenticate :
    gate_pipeline 100 wReqNoCreds = .response noCredsResp ∧
    noCredsResp.www_authenticate = none ∧
    gate_pipeline 100 wReqExpired = .response generic500Resp ∧
    gate_pipeline 100 wReqGarbage = .response generic500Resp ∧
    generic500Resp.www_authenticate = none ∧
    (token_expired_handler tokenExpiredDefault).www_authenticate ≠
      (token_invalid_handler tokenInvalidDefault).www_authenticate := by
  refine ⟨by decide, rfl, by decide, by decide, rfl, by decide⟩

/-- C9: a request on a guarded path bearing a validly signed, unexpired
access-type token whose payload lacks the `sub` claim is not rejected: the
gate binds `None` as the subject (`request.state.sub = payload.get('sub')`)
and forwards the request downstream. -/
theorem gate_forwards_token_without_sub (now : Nat) (p : TokenPayload)
    (path method : String)
    (hpath : path_is_excluded path = false) (hmeth : method ≠ "OPTIONS")
    (ht : p.type = some "access") (hsub : p.sub = none) (hexp : now < p.exp) :
    jwt_dispatch now { path := path, method := method, auth := .bearer (Token.signed p) } =
      GateOutcome.forwarded none := by
  simp [jwt_dispatch, hpath, hmeth, decode_access, decode_signed_ok now p hexp, ht, hsub]

/-- A sub-less but otherwise valid access-token claim set, for C9. -/
def wNoSubAccessPayload : TokenPayload :=
  { sub := none, type := some "access", jti := some "x", iat := 1, exp := 200 }

/-- The guarded request bearing that sub-less token, for the C9 witness. -/
def wReqNoSub : GateRequest :=
  { path := "/api/v1/users/1", method := "GET",
    auth := AuthHeader.bearer (Token.signed wNoSubAccessPayload) }

/-- C9 witness: a concrete guarded request forwarded with subject `None`. -/
theorem gate_forwards_token_without_sub_witness :
    jwt_dispatch 100 wReqNoSub = GateOutcome.forwarded none :=
  gate_forwards_token_without_sub 100 wNoSubAccessPayload "/api/v1/users/1" "GET"
    (by decide) (by decide) rfl rfl (by decide)

end AuthCore
